import Mathlib

/-!
Shallow embedding of `run_daily.py` (gomtang-dori/gomtang-report), the daily
report generator for the Korea Fear & Greed ("곰탕") index, together with
proofs about the claims of the specification.

Modelling conventions:
* numeric values (prices, returns) are exact rationals `ℚ`; a missing /
  NaN value is `Option.none`;
* a pandas `DataFrame` becomes a list of rows plus explicit column-presence
  flags (a column may be present in the header yet hold only nulls);
* fallible code (a raised exception) is `Except String`;
* the categorical labels keep the exact strings of the source
  (`"↓강"`, `"확대"`, `"매수 우위"`, ...).
-/

namespace GomtangReport

/-- Model of `_trend_bin` (run_daily.py, lines 103-118): classify a trailing return
into one of five trend labels, or the sentinel `"NA"` when the value is
missing.  The comparison chain is translated literally from the source. -/
def trend_bin (value : Option ℚ) : String :=
  match value with
  | none => "NA"
  | some v =>
    if v ≤ -(5/100 : ℚ) then "↓강"
    else if v ≤ -(2/100 : ℚ) then "↓"
    else if v < (2/100 : ℚ) then "→"
    else if v < (5/100 : ℚ) then "↑"
    else "↑강"

/-- The fixed trend-column ordering used by `_make_heatmap_tables`
(`trend_order`, line 201). -/
def trend_order : List String := ["↓강", "↓", "→", "↑", "↑강"]

/-- Model of `_bucket_order` (lines 92-100): sorting key for bucket labels; any label
outside the five known ones gets key 99. -/
def bucket_order_key (x : String) : Nat :=
  if x = "Extreme Fear" then 0
  else if x = "Fear" then 1
  else if x = "Neutral" then 2
  else if x = "Greed" then 3
  else if x = "Extreme Greed" then 4
  else 99

/-- Rule A of `_strategy_rules` (lines 284-292): level-based action from the
latest bucket label.  `"확대"` = expand, `"중립"` = neutral, `"축소"` = reduce. -/
def ruleA (bucket : String) : String :=
  if bucket = "Extreme Fear" ∨ bucket = "Fear" then "확대"
  else if bucket = "Neutral" then "중립"
  else "축소"

/-- Rule B of `_strategy_rules` (lines 298-306): trend-based action from the
3-day and 5-day trailing returns (a missing return is `none`, mirroring
`pd.isna`). -/
def ruleB (ret3 ret5 : Option ℚ) : String :=
  match ret3, ret5 with
  | some r3, some r5 =>
    if 0 < r3 ∧ 0 < r5 then "확대"
    else if r3 < 0 ∧ r5 < 0 then "축소"
    else "중립"
  | _, _ => "중립"

/-- The score map of `_strategy_rules` (lines 310-311):
`{"확대": 1, "중립": 0, "축소": -1}.get(action, 0)`. -/
def actionScore (a : String) : Int :=
  if a = "확대" then 1
  else if a = "중립" then 0
  else if a = "축소" then -1
  else 0

/-- The final-verdict combination of `_strategy_rules` (lines 308-317):
sum the two action scores; `"매수 우위"` = buy-leaning,
`"방어 우위"` = defensive-leaning. -/
def finalVerdict (aAction bAction : String) : String :=
  let score := actionScore aAction + actionScore bAction
  if 1 ≤ score then "매수 우위"
  else if score ≤ -1 then "방어 우위"
  else "중립"

/-- One entry of `docs/report_index.json`: an output filename and its as-of
date (`items.insert(0, {"file": ..., "asof": ...})`, line 348). -/
structure IndexEntry where
  file : String
  asof : String
deriving DecidableEq

/-- Model of `_update_report_index` (lines 339-357), restricted to the `items` list it
maintains: drop entries whose filename equals the new one, prepend the new
entry, keep the first 10. -/
def update_report_index (items : List IndexEntry) (newFile asof : String) :
    List IndexEntry :=
  ((⟨newFile, asof⟩ : IndexEntry) :: items.filter (fun x => x.file ≠ newFile)).take 10

/-- One row of the daily observation table, restricted to the columns the
heat-map aggregator and the loader touch.  A `none` field is a null (NaN)
cell. -/
structure Obs where
  date : Nat
  fg_bucket_1y : Option String
  fwd_ret_20d_1y : Option ℚ
  index_close : Option ℚ
deriving DecidableEq

/-- The observation table: rows plus column-presence flags (a pandas column
may be absent from the header altogether, which `col in df.columns`
distinguishes from a present-but-all-null column). -/
structure Table where
  rows : List Obs
  has_fg_bucket_col : Bool
  has_fwd_col : Bool
  has_close_col : Bool

/-- Model of `_safe_col(df, "fg_bucket_1y")` (lines 76-77): the column is present and
holds at least one non-null value. -/
def safe_bucket (t : Table) : Bool :=
  t.has_fg_bucket_col && t.rows.any (fun r => r.fg_bucket_1y.isSome)

/-- Model of `_safe_col(df, "fwd_ret_20d_1y")`. -/
def safe_fwd (t : Table) : Bool :=
  t.has_fwd_col && t.rows.any (fun r => r.fwd_ret_20d_1y.isSome)

/-- Model of `_safe_col(df, "index_close")`. -/
def safe_close (t : Table) : Bool :=
  t.has_close_col && t.rows.any (fun r => r.index_close.isSome)

/-- Forward-fill of a column, as pandas `pct_change` pads null values before
differencing (`fill_method="pad"`); leading nulls stay null. -/
def ffill (xs : List (Option ℚ)) : List (Option ℚ) :=
  (xs.foldl
    (fun acc x =>
      match x with
      | some v => (acc.1 ++ [some v], some v)
      | none => (acc.1 ++ [acc.2], acc.2))
    (([] : List (Option ℚ)), (none : Option ℚ))).1

/-- Model of `Series.pct_change(n)`: entry `i` is `x[i] / x[i-n] - 1` on the padded
series, null for the first `n` entries or when either operand is null.
(A zero base price would give an infinite value in the source; prices are
positive, and that case is modelled as null.) -/
def pct_change (n : Nat) (xs : List (Option ℚ)) : List (Option ℚ) :=
  let f := ffill xs
  (List.range xs.length).map (fun i =>
    if n ≤ i then
      match f.getD (i - n) none, f.getD i none with
      | some b, some a => if b = 0 then none else some ((a - b) / b)
      | _, _ => none
    else none)

/-- The 5-day trailing-return column `d["ret_5d"]` (line 193). -/
def ret5_list (t : Table) : List (Option ℚ) :=
  pct_change 5 (t.rows.map (fun r => r.index_close))

/-- Each row paired with its trend bin
(`d["trend_bin"] = d["ret_5d"].apply(_trend_bin)`, line 194). -/
def annotated (t : Table) : List (Obs × String) :=
  (t.rows.zip (ret5_list t)).map (fun p => (p.1, trend_bin p.2))

/-- A surviving row after
`d.dropna(subset=["fg_bucket_1y", "trend_bin", "fwd_ret_20d_1y"])`
(line 196).  Note that `trend_bin` is always a string — possibly the
sentinel `"NA"` — so the `dropna` only ever removes rows whose bucket or
forward return is null. -/
structure FRow where
  date : Nat
  bucket : String
  trend : String
  fwd : ℚ
deriving DecidableEq

/-- The filtered frame `d` of `_make_heatmap_tables` (lines 192-198). -/
def filtered (t : Table) : List FRow :=
  (annotated t).filterMap (fun p =>
    match p.1.fg_bucket_1y, p.1.fwd_ret_20d_1y with
    | some b, some f => some ⟨p.1.date, b, p.2, f⟩
    | _, _ => none)

/-- Model of `Series.unique()`: the distinct values in order of first appearance. -/
def uniqueFirst (l : List String) : List String :=
  l.foldl (fun acc x => if x ∈ acc then acc else acc ++ [x]) []

/-- Stable insertion used by `sortByKey`: place `x` before the first element
whose key is at least as large. -/
def insertByKey {α : Type} (key : α → Nat) (x : α) : List α → List α
  | [] => [x]
  | y :: ys => if key x ≤ key y then x :: y :: ys else y :: insertByKey key x ys

/-- Stable sort by a natural-number key, as Python's `sorted(..., key=...)`. -/
def sortByKey {α : Type} (key : α → Nat) : List α → List α
  | [] => []
  | x :: xs => insertByKey key x (sortByKey key xs)

/-- Model of `bucket_order = sorted(d["bucket"].unique(), key=_bucket_order)`
(line 200). -/
def bucketOrderOf (t : Table) : List String :=
  sortByKey bucket_order_key (uniqueFirst ((filtered t).map (fun r => r.bucket)))

/-- The forward returns of the rows in the (bucket, trend) group
(`d.groupby(["bucket", "trend_bin"])["fwd_ret_20d_1y"]`). -/
def cellGroup (d : List FRow) (b tr : String) : List ℚ :=
  (d.filter (fun r => r.bucket = b ∧ r.trend = tr)).map (fun r => r.fwd)

/-- Model of `.mean()` of a group; an empty group (a reindexed-in cell) is null. -/
def meanOpt (l : List ℚ) : Option ℚ :=
  if l.isEmpty then none else some (l.sum / l.length)

/-- Model of `float((s > 0).mean())` of a group: the fraction of strictly positive
forward returns; an empty group is null. -/
def winOpt (l : List ℚ) : Option ℚ :=
  if l.isEmpty then none
  else some (((l.filter (fun x => 0 < x)).length : ℚ) / l.length)

/-- A pivoted statistic table: row labels, column labels, and a value matrix
in row-major order (`unstack` + `reindex`, lines 203-214). -/
structure Pivot where
  index : List String
  columns : List String
  vals : List (List (Option ℚ))
deriving DecidableEq

/-- Entry `(i, j)` of a pivot table. -/
def Pivot.cell (p : Pivot) (i j : Nat) : Option ℚ :=
  (p.vals.getD i []).getD j none

/-- Build one pivot: rows from `bo`, columns the fixed `trend_order`, each
cell the statistic of its group — an absent group becomes null, exactly as
`unstack` + `reindex` leave NaN. -/
def make_pivot (d : List FRow) (stat : List ℚ → Option ℚ) (bo : List String) :
    Pivot :=
  ⟨bo, trend_order, bo.map (fun b => trend_order.map (fun tr => stat (cellGroup d b tr)))⟩

/-- Model of `pivot_mean` (lines 203-208). -/
def meanPivot (t : Table) : Pivot :=
  make_pivot (filtered t) meanOpt (bucketOrderOf t)

/-- Model of `pivot_win` (lines 209-214). -/
def winPivot (t : Table) : Pivot :=
  make_pivot (filtered t) winOpt (bucketOrderOf t)

/-- Model of `d.sort_values("date").iloc[-1]` (line 217): the row with the largest
date; on ties the last occurrence wins, as the stable sort keeps it last.
`none` when the frame is empty — where the source raises `IndexError`. -/
def latestRow (d : List FRow) : Option FRow :=
  d.foldl
    (fun acc r =>
      match acc with
      | none => some r
      | some m => if m.date ≤ r.date then some r else some m)
    none

/-- Model of `_make_heatmap_tables` (lines 181-221).  `.ok none` is the
`(None, None, None)` early return for a missing required column;
`.error` is the uncaught `IndexError` of `iloc[-1]` on an empty frame. -/
def make_heatmap_tables (t : Table) :
    Except String (Option (Pivot × Pivot × (String × String))) :=
  if safe_bucket t && safe_fwd t && safe_close t then
    match latestRow (filtered t) with
    | none => .error "single positional indexer is out-of-bounds"
    | some last => .ok (some (meanPivot t, winPivot t, (last.bucket, last.trend)))
  else .ok none

/-- A rendered heat-map: the data drawn plus the position of the
highlighted rectangle, when any. -/
structure HeatmapChart where
  data : Pivot
  highlight : Option (Nat × Nat)
deriving DecidableEq

/-- Model of `_fig_heatmap` (lines 224-256), reduced to what it draws: `none` when no
chart is produced (the `pivot is None or pivot.empty` early return); the
rectangle appears only when both labels of `latest_cell` are on the axes. -/
def fig_heatmap (pivot : Option Pivot) (latest_cell : Option (String × String)) :
    Option HeatmapChart :=
  match pivot with
  | none => none
  | some p =>
    if p.index.isEmpty || p.columns.isEmpty then none
    else
      some ⟨p,
        match latest_cell with
        | none => none
        | some (rlab, clab) =>
          if rlab ∈ p.index ∧ clab ∈ p.columns then
            some (p.index.indexOf rlab, p.columns.indexOf clab)
          else none⟩

/-- The raw primary CSV as seen by `_read_fg`: the parsed rows plus whether
any of the three accepted date columns is present. -/
structure RawFg where
  table : Table
  has_date_col : Bool

/-- Model of `_read_fg` (lines 57-73): a missing file raises `FileNotFoundError`; a
missing date column raises `ValueError`; otherwise the table is sorted by
date (stably) and returned. -/
def read_fg (file : Option RawFg) : Except String Table :=
  match file with
  | none => .error "Missing input: FG_CSV"
  | some raw =>
    if raw.has_date_col then
      .ok { raw.table with rows := sortByKey (fun r => r.date) raw.table.rows }
    else .error "Cannot find date column"

/-- Model of `df.to_html(index=False, escape=False)` on the forward-summary frame,
modelled as a plain cell-by-cell table rendering (library call). -/
def renderHtmlTable (rows : List (List String)) : String :=
  "<table>"
    ++ String.join (rows.map (fun r =>
        "<tr>" ++ String.join (r.map (fun c => "<td>" ++ c ++ "</td>")) ++ "</tr>"))
    ++ "</table>"

/-- Model of `_read_forward_summary_table_html` (lines 121-125): a missing file does
NOT raise — the function returns a placeholder HTML fragment; the result is
always `.ok`. -/
def read_forward_summary_table_html (file : Option (List (List String))) :
    Except String String :=
  match file with
  | none => .ok "<p><b>forward 요약표 파일 없음</b></p>"
  | some df => .ok (renderHtmlTable df)

/-! ## Theorems about the claims -/

/-- C1: for every trailing-return input the trend classifier returns one of
the five labels or `"NA"`; an undefined return gives `"NA"`, and the five
numeric bands partition the rationals with no gap and no overlap at exactly
the stated boundaries (`≤` on the lower bands, `<`/`≥` on the upper). -/
theorem C1_trend_bin_partition (v : ℚ) :
    trend_bin none = "NA" ∧
    trend_bin (some v) ∈ ["↓강", "↓", "→", "↑", "↑강"] ∧
    (trend_bin (some v) = "↓강" ↔ v ≤ -(5/100 : ℚ)) ∧
    (trend_bin (some v) = "↓" ↔ -(5/100 : ℚ) < v ∧ v ≤ -(2/100 : ℚ)) ∧
    (trend_bin (some v) = "→" ↔ -(2/100 : ℚ) < v ∧ v < (2/100 : ℚ)) ∧
    (trend_bin (some v) = "↑" ↔ (2/100 : ℚ) ≤ v ∧ v < (5/100 : ℚ)) ∧
    (trend_bin (some v) = "↑강" ↔ (5/100 : ℚ) ≤ v) := by
  simp only [trend_bin]
  split_ifs with h1 h2 h3 h4 <;>
    refine ⟨trivial, by decide, ?_, ?_, ?_, ?_, ?_⟩ <;>
    constructor <;>
    intro h <;>
    first
      | rfl
      | exact absurd h (by decide)
      | linarith
      | (constructor <;> linarith)

/-- Witness for C1 at the two boundary inputs the claim singles out:
`r = -0.05` gives strong-down and `r = 0.02` gives up. -/
theorem C1_witness :
    trend_bin (some (-(5/100 : ℚ))) = "↓강" ∧ trend_bin (some (2/100 : ℚ)) = "↑" :=
  ⟨(C1_trend_bin_partition (-(5/100))).2.2.1.mpr (by norm_num),
   (C1_trend_bin_partition (2/100)).2.2.2.2.2.1.mpr (by norm_num)⟩

/-- C5: Rule B yields expand when both trailing returns are defined and
strictly positive, reduce when both are defined and strictly negative, and
neutral in every other case (a missing return, a zero, or mixed signs). -/
theorem C5_ruleB_spec (ret3 ret5 : Option ℚ) :
    (ret3 = none ∨ ret5 = none → ruleB ret3 ret5 = "중립") ∧
    (∀ a b, ret3 = some a → ret5 = some b →
      (0 < a ∧ 0 < b → ruleB ret3 ret5 = "확대") ∧
      (a < 0 ∧ b < 0 → ruleB ret3 ret5 = "축소") ∧
      (¬(0 < a ∧ 0 < b) → ¬(a < 0 ∧ b < 0) → ruleB ret3 ret5 = "중립")) := by
  constructor
  · rintro (h | h) <;> subst h
    · rfl
    · cases ret3 <;> rfl
  · rintro a b rfl rfl
    refine ⟨fun hp => ?_, fun hn => ?_, fun h1 h2 => ?_⟩
    · simp only [ruleB, if_pos hp]
    · have hnp : ¬(0 < a ∧ 0 < b) := fun hp => absurd hp.1 (not_lt.mpr hn.1.le)
      simp only [ruleB, if_neg hnp, if_pos hn]
    · simp only [ruleB, if_neg h1, if_neg h2]

/-- Witness for C5: both positive gives expand; mixed signs give neutral;
an undefined 3-day return gives neutral. -/
theorem C5_witness :
    ruleB (some 1) (some 1) = "확대" ∧
    ruleB (some (-1)) (some 1) = "중립" ∧
    ruleB none (some 1) = "중립" :=
  ⟨(((C5_ruleB_spec (some 1) (some 1)).2 1 1 rfl rfl).1) (by norm_num),
   (((C5_ruleB_spec (some (-1)) (some 1)).2 (-1) 1 rfl rfl).2.2)
     (by norm_num) (by norm_num),
   (C5_ruleB_spec none (some 1)).1 (Or.inl rfl)⟩

/-- C6: the final verdict is a total deterministic function of the Rule A /
Rule B action pair; all 9 pairs of the two three-state domains map to the
verdict dictated by summing the scores expand = +1, neutral = 0,
reduce = -1 (buy-leaning iff the sum is at least 1, defensive-leaning iff
it is at most -1, neutral otherwise). -/
theorem C6_finalVerdict_table :
    finalVerdict "확대" "확대" = "매수 우위" ∧
    finalVerdict "확대" "중립" = "매수 우위" ∧
    finalVerdict "확대" "축소" = "중립" ∧
    finalVerdict "중립" "확대" = "매수 우위" ∧
    finalVerdict "중립" "중립" = "중립" ∧
    finalVerdict "중립" "축소" = "방어 우위" ∧
    finalVerdict "축소" "확대" = "중립" ∧
    finalVerdict "축소" "중립" = "방어 우위" ∧
    finalVerdict "축소" "축소" = "방어 우위" := by
  decide

/-- C10: Rule A sends exactly {Extreme Fear, Fear} to expand, exactly
Neutral to neutral, and every other string — including the `"NA"`
placeholder used when the bucket column is absent — to reduce. -/
theorem C10_ruleA_spec (b : String) :
    (ruleA b = "확대" ↔ b = "Extreme Fear" ∨ b = "Fear") ∧
    (ruleA b = "중립" ↔ b = "Neutral") ∧
    (ruleA b = "축소" ↔ ¬(b = "Extreme Fear" ∨ b = "Fear" ∨ b = "Neutral")) := by
  unfold ruleA
  by_cases h1 : b = "Extreme Fear" ∨ b = "Fear"
  · rw [if_pos h1]
    refine ⟨iff_of_true rfl h1, ?_, ?_⟩
    · refine iff_of_false (by decide) (fun hn => ?_)
      rcases h1 with h | h <;> rw [hn] at h <;> exact absurd h (by decide)
    · exact iff_of_false (by decide)
        (fun hn => hn (h1.elim Or.inl (fun h => Or.inr (Or.inl h))))
  · rw [if_neg h1]
    by_cases h2 : b = "Neutral"
    · rw [if_pos h2]
      exact ⟨iff_of_false (by decide) h1, iff_of_true rfl h2,
        iff_of_false (by decide) (fun hn => hn (Or.inr (Or.inr h2)))⟩
    · rw [if_neg h2]
      refine ⟨iff_of_false (by decide) h1, iff_of_false (by decide) h2,
        iff_of_true rfl (fun hor => ?_)⟩
      rcases hor with h | h | h
      · exact h1 (Or.inl h)
      · exact h1 (Or.inr h)
      · exact h2 h

/-- Witness for C10: the `"NA"` placeholder and an arbitrary unknown label
both yield reduce. -/
theorem C10_witness : ruleA "NA" = "축소" ∧ ruleA "whatever" = "축소" :=
  ⟨(C10_ruleA_spec "NA").2.2.mpr (by decide),
   (C10_ruleA_spec "whatever").2.2.mpr (by decide)⟩

/-- C9 (amended): a missing primary observation table is fatal — the loader
raises before anything is produced — but a missing forward-return summary
table is NOT fatal: its reader returns a placeholder HTML fragment and the
run continues. -/
theorem C9_missing_file_behavior :
    read_fg none = .error "Missing input: FG_CSV" ∧
    read_forward_summary_table_html none = .ok "<p><b>forward 요약표 파일 없음</b></p>" :=
  ⟨rfl, rfl⟩

/-- Counterexample for C9 as stated: with the forward-return summary file
missing, the reader returns normally (a successful placeholder string), so
the run does not abort — the claim that every missing input file is fatal
is false for this input. -/
theorem C9_counterexample :
    read_forward_summary_table_html none = .ok "<p><b>forward 요약표 파일 없음</b></p>" :=
  rfl

/-- C7 (amended): the report-index update removes every entry with the new
filename, prepends the new entry and truncates to 10 — so the result has at
most 10 entries, starts with the new entry, and holds exactly one entry
with the new filename; and applying the update twice with the same filename
and as-of date leaves exactly one entry for that date, provided every prior
entry bearing that date carries that filename (true in the pipeline, where
the filename is derived from the date). -/
theorem C7_update_report_index_spec (items : List IndexEntry) (f a : String)
    (hdate : ∀ e ∈ items, e.asof = a → e.file = f) :
    (update_report_index items f a).length ≤ 10 ∧
    (update_report_index items f a).head? = some ⟨f, a⟩ ∧
    (update_report_index items f a).countP (fun x => x.file == f) = 1 ∧
    (update_report_index (update_report_index items f a) f a).countP
      (fun x => x.asof == a) = 1 := by
  have hnotf : ∀ x ∈ (items.filter (fun x => x.file ≠ f)).take 9, (x.file == f) = false := by
    intro x hx
    have hx' := List.take_subset 9 _ hx
    rw [List.mem_filter] at hx'
    simpa using of_decide_eq_true hx'.2
  have hupd : update_report_index items f a =
      (⟨f, a⟩ : IndexEntry) :: (items.filter (fun x => x.file ≠ f)).take 9 := rfl
  refine ⟨?_, ?_, ?_, ?_⟩
  · exact List.length_take_le 10 _
  · rw [hupd]
    rfl
  · have h0 : ((items.filter (fun x => x.file ≠ f)).take 9).countP
        (fun x => x.file == f) = 0 :=
      List.countP_eq_zero.mpr (fun x hx => by simp [hnotf x hx])
    rw [hupd, List.countP_cons, h0]
    simp
  · have hfilter : (update_report_index items f a).filter (fun x => x.file ≠ f) =
        ((items.filter (fun x => x.file ≠ f)).take 9).filter (fun x => x.file ≠ f) := by
      rw [hupd, List.filter_cons]
      simp
    have hupd2 : update_report_index (update_report_index items f a) f a =
        (⟨f, a⟩ : IndexEntry) ::
          (((items.filter (fun x => x.file ≠ f)).take 9).filter
            (fun x => x.file ≠ f)).take 9 := by
      have h1 : update_report_index (update_report_index items f a) f a =
          ((⟨f, a⟩ : IndexEntry) ::
            (update_report_index items f a).filter (fun x => x.file ≠ f)).take 10 := rfl
      rw [h1, hfilter]
      rfl
    have h0 : ((((items.filter (fun x => x.file ≠ f)).take 9).filter
        (fun x => x.file ≠ f)).take 9).countP (fun x => x.asof == a) = 0 := by
      refine List.countP_eq_zero.mpr (fun x hx => ?_)
      have hx1 := List.take_subset 9 _ hx
      rw [List.mem_filter] at hx1
      have hx2 := List.take_subset 9 _ hx1.1
      rw [List.mem_filter] at hx2
      have hxf : x.file ≠ f := of_decide_eq_true hx2.2
      have hxa : x.asof ≠ a := fun h => hxf (hdate x hx2.1 h)
      simpa using hxa
    rw [hupd2, List.countP_cons, h0]
    simp

/-- Counterexample for C7 as stated: over an arbitrary prior list the
"exactly one entry for that date" consequence fails — a prior entry with
the same as-of date under a different filename survives the
filename-keyed de-duplication, so two updates with the same filename and
date leave two entries for that date. -/
theorem C7_counterexample :
    (update_report_index
      (update_report_index [⟨"old.html", "2025-10-10"⟩] "new.html" "2025-10-10")
      "new.html" "2025-10-10").countP (fun x => x.asof == "2025-10-10") = 2 := by
  decide

/-- Witness for C7: a prior list whose only entry carries a different date. -/
theorem C7_witness :
    (update_report_index [⟨"a.html", "2025-10-01"⟩] "b.html" "2025-10-02").length ≤ 10 ∧
    (update_report_index [⟨"a.html", "2025-10-01"⟩] "b.html" "2025-10-02").head? =
      some ⟨"b.html", "2025-10-02"⟩ ∧
    (update_report_index [⟨"a.html", "2025-10-01"⟩] "b.html" "2025-10-02").countP
      (fun x => x.file == "b.html") = 1 ∧
    (update_report_index
      (update_report_index [⟨"a.html", "2025-10-01"⟩] "b.html" "2025-10-02")
      "b.html" "2025-10-02").countP (fun x => x.asof == "2025-10-02") = 1 :=
  C7_update_report_index_spec [⟨"a.html", "2025-10-01"⟩] "b.html" "2025-10-02"
    (by decide)

/-- Inversion helper: a successful heat-map result consists of the two
pivots built from the filtered frame and the (bucket, trend) of the row
`iloc[-1]` selects. -/
theorem make_heatmap_tables_ok {t : Table} {pm pw : Pivot} {cl : String × String}
    (h : make_heatmap_tables t = .ok (some (pm, pw, cl))) :
    pm = meanPivot t ∧ pw = winPivot t ∧
    ∃ lr, latestRow (filtered t) = some lr ∧ cl = (lr.bucket, lr.trend) := by
  unfold make_heatmap_tables at h
  by_cases hc : (safe_bucket t && safe_fwd t && safe_close t) = true
  · rw [if_pos hc] at h
    cases hl : latestRow (filtered t) with
    | none =>
      rw [hl] at h
      simp at h
    | some lr =>
      rw [hl] at h
      simp only [Except.ok.injEq, Option.some.injEq, Prod.mk.injEq] at h
      obtain ⟨h1, h2, h3⟩ := h
      exact ⟨h1.symm, h2.symm, lr, rfl, h3.symm⟩
  · rw [if_neg hc] at h
    simp at h

/-- Cell formula of `make_pivot`: entry `(i, j)` is the statistic of the
group labelled by the `i`-th row label and `j`-th trend column. -/
theorem make_pivot_cell (d : List FRow) (stat : List ℚ → Option ℚ)
    (bo : List String) (i j : Nat) (hi : i < bo.length)
    (hj : j < trend_order.length) :
    (make_pivot d stat bo).cell i j =
      stat (cellGroup d (bo.getD i "") (trend_order.getD j "")) := by
  unfold make_pivot Pivot.cell
  simp only [List.getD_eq_getElem?_getD, List.getElem?_map,
    List.getElem?_eq_getElem hi, List.getElem?_eq_getElem hj,
    Option.map_some', Option.getD_some]

/-- Lemma `make_pivot_cell` specialised to the mean pivot. -/
theorem meanPivot_cell (t : Table) (i j : Nat)
    (hi : i < (bucketOrderOf t).length) (hj : j < trend_order.length) :
    (meanPivot t).cell i j =
      meanOpt (cellGroup (filtered t) ((bucketOrderOf t).getD i "")
        (trend_order.getD j "")) :=
  make_pivot_cell (filtered t) meanOpt (bucketOrderOf t) i j hi hj

/-- Lemma `make_pivot_cell` specialised to the win-rate pivot. -/
theorem winPivot_cell (t : Table) (i j : Nat)
    (hi : i < (bucketOrderOf t).length) (hj : j < trend_order.length) :
    (winPivot t).cell i j =
      winOpt (cellGroup (filtered t) ((bucketOrderOf t).getD i "")
        (trend_order.getD j "")) :=
  make_pivot_cell (filtered t) winOpt (bucketOrderOf t) i j hi hj

/-- A one-row observation table: bucket `Fear`, forward return defined, but
the 5-day trailing return undefined (fewer than 6 closes), so the trend bin
is the sentinel `"NA"`. -/
def exOneRow : Table :=
  { rows := [{ date := 0, fg_bucket_1y := some "Fear",
               fwd_ret_20d_1y := some 1, index_close := some 100 }],
    has_fg_bucket_col := true, has_fwd_col := true, has_close_col := true }

/-- C2 (amended): for every accepted table the two pivots share identical
row and column orderings and shape; the columns are exactly the fixed trend
ordering, and the rows are the bucket labels present in the filtered data,
sorted by the fixed bucket ordering — not always the full five. -/
theorem C2_pivot_shape (t : Table) (pm pw : Pivot) (cl : String × String)
    (h : make_heatmap_tables t = .ok (some (pm, pw, cl))) :
    pm.index = pw.index ∧ pm.columns = pw.columns ∧ pm.columns = trend_order ∧
    pm.index = bucketOrderOf t ∧
    pm.vals.length = pm.index.length ∧ pw.vals.length = pw.index.length ∧
    (∀ row ∈ pm.vals, row.length = pm.columns.length) ∧
    (∀ row ∈ pw.vals, row.length = pw.columns.length) := by
  obtain ⟨h1, h2, -⟩ := make_heatmap_tables_ok h
  subst h1
  subst h2
  refine ⟨rfl, rfl, rfl, rfl, ?_, ?_, ?_, ?_⟩
  · simp [meanPivot, make_pivot]
  · simp [winPivot, make_pivot]
  · intro row hrow
    simp only [meanPivot, make_pivot, List.mem_map] at hrow
    obtain ⟨b, -, hb⟩ := hrow
    simp [← hb, meanPivot, make_pivot]
  · intro row hrow
    simp only [winPivot, make_pivot, List.mem_map] at hrow
    obtain ⟨b, -, hb⟩ := hrow
    simp [← hb, winPivot, make_pivot]

/-- Counterexample for C2 as stated: an accepted table whose only bucket is
`Fear` yields matrices whose row axis is `["Fear"]`, not the five-element
fixed bucket ordering. -/
theorem C2_counterexample :
    make_heatmap_tables exOneRow =
      .ok (some (meanPivot exOneRow, winPivot exOneRow, ("Fear", "NA"))) ∧
    (meanPivot exOneRow).index = ["Fear"] ∧
    ["Fear"] ≠ ["Extreme Fear", "Fear", "Neutral", "Greed", "Extreme Greed"] :=
  ⟨rfl, by decide, by decide⟩

/-- Witness for C2's amended theorem at a concrete accepted table. -/
theorem C2_witness :
    (meanPivot exOneRow).index = (winPivot exOneRow).index ∧
    (meanPivot exOneRow).columns = (winPivot exOneRow).columns ∧
    (meanPivot exOneRow).columns = trend_order ∧
    (meanPivot exOneRow).index = bucketOrderOf exOneRow :=
  ⟨(C2_pivot_shape exOneRow (meanPivot exOneRow) (winPivot exOneRow)
      ("Fear", "NA") rfl).1,
   (C2_pivot_shape exOneRow (meanPivot exOneRow) (winPivot exOneRow)
      ("Fear", "NA") rfl).2.1,
   (C2_pivot_shape exOneRow (meanPivot exOneRow) (winPivot exOneRow)
      ("Fear", "NA") rfl).2.2.1,
   (C2_pivot_shape exOneRow (meanPivot exOneRow) (winPivot exOneRow)
      ("Fear", "NA") rfl).2.2.2.1⟩

/-- C3: in every accepted table, a (bucket, trend) cell with no contributing
rows is missing (`none`, never the number 0) in both matrices; a cell with
contributing rows holds the arithmetic mean of the forward returns in the
mean matrix and the fraction of strictly positive forward returns in the
win-rate matrix. -/
theorem C3_cell_stats (t : Table) (pm pw : Pivot) (cl : String × String)
    (h : make_heatmap_tables t = .ok (some (pm, pw, cl)))
    (i j : Nat) (hi : i < pm.index.length) (hj : j < pm.columns.length) :
    (cellGroup (filtered t) (pm.index.getD i "") (pm.columns.getD j "") = [] →
      pm.cell i j = none ∧ pw.cell i j = none) ∧
    (cellGroup (filtered t) (pm.index.getD i "") (pm.columns.getD j "") ≠ [] →
      pm.cell i j = some
        ((cellGroup (filtered t) (pm.index.getD i "") (pm.columns.getD j "")).sum /
         ((cellGroup (filtered t) (pm.index.getD i "") (pm.columns.getD j "")).length : ℚ)) ∧
      pw.cell i j = some
        ((((cellGroup (filtered t) (pm.index.getD i "") (pm.columns.getD j "")).filter
            (fun x => 0 < x)).length : ℚ) /
         ((cellGroup (filtered t) (pm.index.getD i "") (pm.columns.getD j "")).length : ℚ))) := by
  obtain ⟨h1, h2, -⟩ := make_heatmap_tables_ok h
  subst h1
  subst h2
  have hi' : i < (bucketOrderOf t).length := hi
  have hj' : j < trend_order.length := hj
  have hcm := meanPivot_cell t i j hi' hj'
  have hcw := winPivot_cell t i j hi' hj'
  have hidx : (meanPivot t).index.getD i "" = (bucketOrderOf t).getD i "" := rfl
  have hcol : (meanPivot t).columns.getD j "" = trend_order.getD j "" := rfl
  rw [hidx, hcol]
  constructor
  · intro hg
    rw [hcm, hcw, hg]
    exact ⟨rfl, rfl⟩
  · intro hg
    have hne : (cellGroup (filtered t) ((bucketOrderOf t).getD i "")
        (trend_order.getD j "")).isEmpty = false := by
      rw [List.isEmpty_eq_false]
      exact hg
    rw [hcm, hcw]
    unfold meanOpt winOpt
    rw [hne]
    exact ⟨rfl, rfl⟩

/-- Witness for C3: in the one-row table the (Fear, strong-down) cell has no
contributing rows and both matrices leave it missing. -/
theorem C3_witness :
    (meanPivot exOneRow).cell 0 0 = none ∧ (winPivot exOneRow).cell 0 0 = none :=
  (C3_cell_stats exOneRow (meanPivot exOneRow) (winPivot exOneRow) ("Fear", "NA")
    rfl 0 0 (by decide) (by decide)).1 (by decide)

/-- C4 (amended): the aggregator drops only rows lacking the bucket label or
the forward return; a row whose 5-day trailing return is undefined is kept
with the sentinel trend bin `"NA"`.  The highlighted current cell is the
(bucket, trend) of the most recent surviving row by date — possibly with
trend `"NA"` — while rows with trend `"NA"` contribute to no cell under the
five fixed trend columns. -/
theorem C4_current_cell (t : Table) (pm pw : Pivot) (cl : String × String)
    (h : make_heatmap_tables t = .ok (some (pm, pw, cl))) :
    (∃ lr, latestRow (filtered t) = some lr ∧ cl = (lr.bucket, lr.trend)) ∧
    (∀ b tr, tr ∈ trend_order →
      cellGroup (filtered t) b tr =
        cellGroup ((filtered t).filter (fun r => r.trend ≠ "NA")) b tr) := by
  obtain ⟨-, -, hlast⟩ := make_heatmap_tables_ok h
  refine ⟨hlast, fun b tr htr => ?_⟩
  have hNA : tr ≠ "NA" := by
    intro hEq
    rw [hEq] at htr
    exact absurd htr (by decide)
  unfold cellGroup
  congr 1
  rw [List.filter_filter]
  refine (List.filter_congr (fun x hx => ?_)).symm
  by_cases hp : x.bucket = b ∧ x.trend = tr
  · have hxt : x.trend ≠ "NA" := by
      rw [hp.2]
      exact hNA
    simp [hp, hxt, hNA]
  · simp [hp]

/-- Counterexample for C4 as stated: in the one-row table the surviving row
has an undefined trailing return — its trend bin is the sentinel `"NA"`,
not one of the five bins — yet it is not dropped and it supplies the
highlighted cell `("Fear", "NA")`. -/
theorem C4_counterexample :
    make_heatmap_tables exOneRow =
      .ok (some (meanPivot exOneRow, winPivot exOneRow, ("Fear", "NA"))) ∧
    filtered exOneRow = [⟨0, "Fear", "NA", 1⟩] ∧
    "NA" ∉ trend_order :=
  ⟨rfl, by decide, by decide⟩

/-- Witness for C4's amended theorem at the one-row table. -/
theorem C4_witness :
    latestRow (filtered exOneRow) = some ⟨0, "Fear", "NA", 1⟩ ∧
    cellGroup (filtered exOneRow) "Fear" "↓강" =
      cellGroup ((filtered exOneRow).filter (fun r => r.trend ≠ "NA")) "Fear" "↓강" := by
  have h := C4_current_cell exOneRow (meanPivot exOneRow) (winPivot exOneRow)
    ("Fear", "NA") rfl
  exact ⟨by decide, h.2 "Fear" "↓강" (by decide)⟩

/-- An observation table whose bucket-label column is absent altogether. -/
def exNoBucketCol : Table :=
  { rows := [], has_fg_bucket_col := false, has_fwd_col := true,
    has_close_col := true }

/-- C8: if any of the three required columns is entirely absent, the
aggregator returns the unavailable triple (`None, None, None`) and the
heat-map renderer, handed the unavailable pivot, returns without producing
a chart. -/
theorem C8_missing_column (t : Table)
    (h : t.has_fg_bucket_col = false ∨ t.has_fwd_col = false ∨
      t.has_close_col = false) :
    make_heatmap_tables t = .ok none ∧ fig_heatmap none none = none ∧
    (∀ c, fig_heatmap none (some c) = none) := by
  have hc : (safe_bucket t && safe_fwd t && safe_close t) = false := by
    rcases h with h | h | h <;> simp [safe_bucket, safe_fwd, safe_close, h]
  refine ⟨?_, rfl, fun c => rfl⟩
  simp [make_heatmap_tables, hc]

/-- Witness for C8 at a table with no bucket-label column. -/
theorem C8_witness :
    make_heatmap_tables exNoBucketCol = .ok none ∧
    fig_heatmap none (some ("Fear", "→")) = none :=
  ⟨(C8_missing_column exNoBucketCol (Or.inl rfl)).1,
   (C8_missing_column exNoBucketCol (Or.inl rfl)).2.2 ("Fear", "→")⟩

end GomtangReport
